import Mathlib

/-!
# Health monitor firmware (`f.cpp`): embedding and verified properties

The firmware is a single-threaded Arduino sketch for the ESP8266.  Its global
variables are collected in `State`; the external collaborators (optical sensor
driver, beat-detection primitive, ratio-of-ratios primitive, `millis()`) are
taken as parameters, since their code is third-party library code.

Machine integers: `unsigned long` and `uint32_t` are 32 bits wide on the target;
they are modelled as `Nat` with explicit reduction modulo `2^32` where
wrap-around can happen.  `int` values are modelled as `Int`.

Serial logging, `yield()` and the HTTP redirect sent by the request handlers have
no effect on the state and are left out.  `setup`, `loop`, the Wi-Fi functions
and `handleRoot` are not modelled: the properties below are about the functions
that `loop` and the HTTP server dispatch to.
-/

namespace HealthMonitor

/-! ## Machine arithmetic -/

/-- Modulus of the 32-bit `unsigned long` type. -/
def UL : Nat := 4294967296

/-- Unsigned 32-bit subtraction `a - b`, wrapping modulo `2^32`. -/
def sub32 (a b : Nat) : Nat := (a % UL + (UL - b % UL)) % UL

/-! ## Global state -/

/-- The global variables of the sketch that the modelled functions use. -/
structure State where
  pulse : Int
  spo2 : Int
  beatDetected : Bool
  redBuffer : List Nat
  irBuffer : List Nat
  irValue : Nat
  lastBeat : Nat
  timeBase : Nat
  alarmHour : Int
  alarmMinute : Int
  alarmTriggered : Bool
  blinkState : Bool
  lastBlink : Nat
  wifiInitialized : Bool
deriving DecidableEq

/-- Values of the globals given by their initialisers. -/
def State.init : State where
  pulse := 0
  spo2 := 0
  beatDetected := false
  redBuffer := List.replicate 100 0
  irBuffer := List.replicate 100 0
  irValue := 0
  lastBeat := 0
  timeBase := 0
  alarmHour := -1
  alarmMinute := -1
  alarmTriggered := false
  blinkState := true
  lastBlink := 0
  wifiInitialized := false

/-! ## External collaborators -/

/-- The operations of the `MAX30105` driver object `particleSensor` that the
sketch calls, over an abstract driver state `Sn`.  `getIR` and `getRed` return
the reading and the new driver state; `available` is the number of buffered
samples. -/
structure Sensor (Sn : Type) where
  getIR : Sn → Nat × Sn
  getRed : Sn → Nat × Sn
  available : Sn → Nat
  check : Sn → Sn
  nextSample : Sn → Sn

/-- Output parameters of `maxim_heart_rate_and_oxygen_saturation`. -/
structure MaximOut where
  spo2Val : Int
  validSpO2 : Int
  hr : Int
  validHR : Int

/-- The globals together with the state of the sensor driver, the internal
state of the beat detector, and counters recording the calls made to
`delay(1)`, `checkForBeat` and `maxim_heart_rate_and_oxygen_saturation`. -/
structure World (Sn D : Type) where
  st : State
  sn : Sn
  det : D
  delays : Nat
  beatCalls : Nat
  spo2Calls : Nat

variable {Sn D : Type}

/-! ## Sensor sampling and beat detection -/

/-- The function `readSensorData`.  `now1` and `now2` are the two successive
readings of `millis()` taken after a beat. -/
def readSensorData (api : Sensor Sn) (checkForBeat : D → Nat → Bool × D)
    (now1 now2 : Nat) (w : World Sn D) : World Sn D :=
  let r := api.getIR w.sn
  let w1 : World Sn D := { w with sn := r.2, st := { w.st with irValue := r.1 } }
  if r.1 < 25000 then
    { w1 with st := { w1.st with beatDetected := false } }
  else
    let b := checkForBeat w1.det r.1
    let w2 : World Sn D := { w1 with det := b.2, beatCalls := w1.beatCalls + 1 }
    if b.1 then
      let delta := sub32 now1 w2.st.lastBeat
      let w3 : World Sn D := { w2 with st := { w2.st with lastBeat := now2 } }
      if 300 < delta ∧ delta < 2000 then
        { w3 with st := { w3.st with pulse := ((60000 / delta : Nat) : Int),
                                     beatDetected := true } }
      else w3
    else w2

/-! ## SpO2 estimation -/

/-- The inner loop `while (!available() && retry++ < 50) { delay(1); check(); }`
of `calculateSpO2`.  The first argument is the remaining budget `50 - retry`;
the pair is the driver state and the count of `delay(1)` calls. -/
def waitSample (api : Sensor Sn) : Nat → Sn × Nat → Sn × Nat
  | 0, p => p
  | k + 1, p =>
    if api.available p.1 = 0 then waitSample api k (api.check p.1, p.2 + 1) else p

/-- The branch `redBuffer[i] = getRed(); irBuffer[i] = getIR(); nextSample();`
of `calculateSpO2`, entered with driver state `sn` after `d` calls of
`delay(1)`. -/
def takeSample (api : Sensor Sn) (i : Nat) (w : World Sn D) (sn : Sn) (d : Nat) : World Sn D :=
  let red := api.getRed sn
  let ir := api.getIR red.2
  { w with sn := api.nextSample ir.2,
           delays := d,
           st := { w.st with redBuffer := w.st.redBuffer.set i red.1,
                             irBuffer := w.st.irBuffer.set i ir.1 } }

/-- The loop `for (int i = ...; i < 100; ++i)` of `calculateSpO2`, with `n`
iterations left to run from index `i`.  The Boolean is `false` when the loop
was left by the `return` in its `else` branch. -/
def fillFrom (api : Sensor Sn) : Nat → Nat → World Sn D → Bool × World Sn D
  | 0, _, w => (true, w)
  | n + 1, i, w =>
    let p := waitSample api 50 (w.sn, w.delays)
    if api.available p.1 ≠ 0 then
      fillFrom api n (i + 1) (takeSample api i w p.1 p.2)
    else
      (false, { w with sn := p.1, delays := p.2 })

/-- The function `calculateSpO2`. -/
def calculateSpO2 (api : Sensor Sn) (maxim : List Nat → List Nat → MaximOut)
    (w : World Sn D) : World Sn D :=
  let r := api.getIR w.sn
  let w1 : World Sn D := { w with sn := r.2 }
  if r.1 < 25000 then
    w1
  else
    let f := fillFrom api 100 0 w1
    if f.1 then
      let out := maxim f.2.st.irBuffer f.2.st.redBuffer
      let w2 : World Sn D := { f.2 with spo2Calls := f.2.spo2Calls + 1 }
      if out.validSpO2 ≠ 0 ∧ 0 < out.spo2Val ∧ out.spo2Val ≤ 100 then
        { w2 with st := { w2.st with spo2 := out.spo2Val } }
      else w2
    else f.2

/-! ## Clock and alarm -/

/-- Hour derived from the elapsed milliseconds `t`: `(t / 3600000) % 24`. -/
def hourOf (t : Nat) : Int := ((t / 3600000 % 24 : Nat) : Int)

/-- Minute derived from the elapsed milliseconds `t`: `(t / 60000) % 60`. -/
def minuteOf (t : Nat) : Int := ((t / 60000 % 60 : Nat) : Int)

/-- Second derived from the elapsed milliseconds `t`: `(t / 1000) % 60`. -/
def secondOf (t : Nat) : Int := ((t / 1000 % 60 : Nat) : Int)

/-- The function `checkAlarmState`.  `now1` is the first reading of `millis()`
in the call, `now2` the reading stored in `lastBlink`. -/
def checkAlarmState (now1 now2 : Nat) (s : State) : State :=
  if s.alarmTriggered then
    if 500 < sub32 now1 s.lastBlink then
      { s with blinkState := !s.blinkState, lastBlink := now2 }
    else s
  else if 0 ≤ s.alarmHour then
    let t := sub32 now1 s.timeBase
    if hourOf t = s.alarmHour ∧ minuteOf t = s.alarmMinute then
      { s with alarmTriggered := true }
    else s
  else s

/-- The function `handleSetTime`.  An argument is `none` when the request lacks
it (`hasArg` false) and `some v` when it is present with `toInt()` value `v`. -/
def handleSetTime (h m : Option Int) (now : Nat) (s : State) : State :=
  match h, m with
  | some hv, some mv =>
    if 0 ≤ hv ∧ hv < 24 ∧ 0 ≤ mv ∧ mv < 60 then
      { s with timeBase := sub32 now ((hv.toNat * 3600000 + mv.toNat * 60000) % UL) }
    else s
  | _, _ => s

/-- The function `handleSetAlarm`, with request arguments as in `handleSetTime`. -/
def handleSetAlarm (h m : Option Int) (s : State) : State :=
  match h, m with
  | some hv, some mv =>
    { s with alarmHour := hv, alarmMinute := mv, alarmTriggered := false }
  | _, _ => s

/-- The function `handleClearAlarm`. -/
def handleClearAlarm (s : State) : State :=
  { s with alarmHour := -1, alarmMinute := -1, alarmTriggered := false }

/-! ## Publication -/

/-- The fields of the JSON object built by `handleData`. -/
structure DataReply where
  hour : Int
  minute : Int
  second : Int
  pulse : Int
  spo2 : Int
  alarm : Option (Int × Int)
  alarmActive : Bool
deriving DecidableEq

/-- The function `handleData`, called when `millis()` reads `now`. -/
def handleData (now : Nat) (s : State) : DataReply :=
  let t := sub32 now s.timeBase
  { hour := hourOf t
    minute := minuteOf t
    second := secondOf t
    pulse := if s.beatDetected then s.pulse else 0
    spo2 := s.spo2
    alarm := if 0 ≤ s.alarmHour then some (s.alarmHour, s.alarmMinute) else none
    alarmActive := s.alarmTriggered }

/-- One item printed to the display by `updateDisplay`. -/
inductive Item where
  | alarmBanner
  | time (h m s : Int)
  | wifiNotConnected
  | wifiClients (n : Nat)
  | placeFinger
  | pulse (bpm : Int)
  | spo2 (pct : Int)
  | alarm (h m : Int)
deriving DecidableEq

/-- The function `updateDisplay`: the items printed, in order.  `stations` is
the value of `WiFi.softAPgetStationNum()`. -/
def updateDisplay (now stations : Nat) (s : State) : List Item :=
  if s.alarmTriggered then
    if s.blinkState then [Item.alarmBanner] else []
  else
    let t := sub32 now s.timeBase
    [Item.time (hourOf t) (minuteOf t) (secondOf t)]
    ++ (if !s.wifiInitialized then [Item.wifiNotConnected] else [Item.wifiClients stations])
    ++ (if s.irValue < 25000 then [Item.placeFinger]
        else [Item.pulse (if s.beatDetected then s.pulse else 0), Item.spo2 s.spo2])
    ++ (if 0 ≤ s.alarmHour then [Item.alarm s.alarmHour s.alarmMinute] else [])

/-! ## Sequences of operations -/

/-- An operation on the whole system.  `hardware` replaces the driver state,
standing for what the sensor hardware does between two calls. -/
inductive Op (Sn : Type) where
  | readSensor (now1 now2 : Nat)
  | calcSpO2
  | checkAlarm (now1 now2 : Nat)
  | setTime (h m : Option Int) (now : Nat)
  | setAlarm (h m : Option Int)
  | clearAlarm
  | hardware (sn : Sn)

/-- Effect of one operation. -/
def step (api : Sensor Sn) (checkForBeat : D → Nat → Bool × D)
    (maxim : List Nat → List Nat → MaximOut) (w : World Sn D) : Op Sn → World Sn D
  | .readSensor now1 now2 => readSensorData api checkForBeat now1 now2 w
  | .calcSpO2 => calculateSpO2 api maxim w
  | .checkAlarm now1 now2 => { w with st := checkAlarmState now1 now2 w.st }
  | .setTime h m now => { w with st := handleSetTime h m now w.st }
  | .setAlarm h m => { w with st := handleSetAlarm h m w.st }
  | .clearAlarm => { w with st := handleClearAlarm w.st }
  | .hardware sn => { w with sn := sn }

/-- Effect of a sequence of operations, first to last. -/
def run (api : Sensor Sn) (checkForBeat : D → Nat → Bool × D)
    (maxim : List Nat → List Nat → MaximOut) (w : World Sn D) (ops : List (Op Sn)) :
    World Sn D :=
  ops.foldl (step api checkForBeat maxim) w

/-- A call of `checkAlarmState` or a `handleSetTime` request. -/
inductive ClockEvent where
  | check (now1 now2 : Nat)
  | setTime (h m : Option Int) (now : Nat)

/-- Effect of one clock event on the globals. -/
def clockStep (s : State) : ClockEvent → State
  | .check now1 now2 => checkAlarmState now1 now2 s
  | .setTime h m now => handleSetTime h m now s

/-- Effect of a sequence of clock events, first to last. -/
def runClock (s : State) (evs : List ClockEvent) : State :=
  evs.foldl clockStep s

/-- Successive calls of `readSensorData`; each pair holds the two `millis()`
readings available to one call. -/
def readMany (api : Sensor Sn) (checkForBeat : D → Nat → Bool × D) (w : World Sn D)
    (ts : List (Nat × Nat)) : World Sn D :=
  ts.foldl (fun v t => readSensorData api checkForBeat t.1 t.2 v) w

/-- Every call of the sequence polls an IR intensity below 25000. -/
def allAbsent (api : Sensor Sn) (checkForBeat : D → Nat → Bool × D) :
    World Sn D → List (Nat × Nat) → Bool
  | _, [] => true
  | w, t :: ts =>
    decide ((api.getIR w.sn).1 < 25000)
      && allAbsent api checkForBeat (readSensorData api checkForBeat t.1 t.2 w) ts

/-- The operation detects no beat in world `w`: it is not a call of
`readSensorData`, or that call polls an IR intensity below 25000 or gets
`false` from the beat detector. -/
def opQuiet (api : Sensor Sn) (checkForBeat : D → Nat → Bool × D) (w : World Sn D) :
    Op Sn → Bool
  | .readSensor _ _ =>
    decide ((api.getIR w.sn).1 < 25000) || !(checkForBeat w.det (api.getIR w.sn).1).1
  | _ => true

/-- The operation is a call of `readSensorData` that polls an IR intensity
below 25000 in world `w`. -/
def opAbsent (api : Sensor Sn) (w : World Sn D) : Op Sn → Bool
  | .readSensor _ _ => decide ((api.getIR w.sn).1 < 25000)
  | _ => false

/-- No operation of the sequence, run from `w`, detects a beat. -/
def noBeatOps (api : Sensor Sn) (checkForBeat : D → Nat → Bool × D)
    (maxim : List Nat → List Nat → MaximOut) : World Sn D → List (Op Sn) → Bool
  | _, [] => true
  | w, op :: ops =>
    opQuiet api checkForBeat w op
      && noBeatOps api checkForBeat maxim (step api checkForBeat maxim w op) ops

/-- Some operation of the sequence, run from `w`, is a call of `readSensorData`
that polls an IR intensity below 25000. -/
def someAbsentOps (api : Sensor Sn) (checkForBeat : D → Nat → Bool × D)
    (maxim : List Nat → List Nat → MaximOut) : World Sn D → List (Op Sn) → Bool
  | _, [] => false
  | w, op :: ops =>
    opAbsent api w op
      || someAbsentOps api checkForBeat maxim (step api checkForBeat maxim w op) ops

/-! ## Concrete collaborators used to instantiate the theorems -/

/-- A sensor driver whose state is the list of IR readings still to come:
`getIR` consumes the next reading, `getRed` reports half of it, a sample is
available while the list is non-empty and no new data ever arrives. -/
def scriptSensor : Sensor (List Nat) where
  getIR l := (l.headD 0, l.tail)
  getRed l := (l.headD 0 / 2, l)
  available l := l.length
  check l := l
  nextSample l := l

/-- A beat detector that reports a beat on every sample and records the
samples it was given. -/
def everyBeat (d : List Nat) (sample : Nat) : Bool × List Nat := (true, sample :: d)

/-- A beat detector that never reports a beat. -/
def neverBeat (d : List Nat) (sample : Nat) : Bool × List Nat := (false, sample :: d)

/-- A beat detector that reports a beat on samples of at least 31000 and
records the samples it was given. -/
def peakBeat (d : List Nat) (sample : Nat) : Bool × List Nat :=
  (decide (31000 ≤ sample), sample :: d)

/-- A ratio-of-ratios primitive returning fixed outputs. -/
def constMaxim (spo2Val validSpO2 : Int) (_ir _red : List Nat) : MaximOut :=
  { spo2Val := spo2Val, validSpO2 := validSpO2, hr := 0, validHR := 0 }

/-- The world at startup with the given script of IR readings. -/
def World.start (script : List Nat) : World (List Nat) (List Nat) :=
  { st := State.init, sn := script, det := [], delays := 0, beatCalls := 0, spo2Calls := 0 }

/-! ## Specification-side definitions -/

/-- The quotient `a / b` rounded to the nearest integer (halves rounded up), as
in the specification's `round(60000 / Δ)`. -/
def roundDiv (a b : Nat) : Nat := (2 * a + b) / (2 * b)

/-- Globals with an alarm armed for 07:30 that has already triggered. -/
def triggered0730 : State :=
  { State.init with alarmHour := 7, alarmMinute := 30, alarmTriggered := true }

/-- A world in which the alarm armed for 07:30 has triggered. -/
def World.ringing (script : List Nat) : World (List Nat) (List Nat) :=
  { World.start script with st := triggered0730 }

/-- The world after `setup` has brought up the Wi-Fi access point. -/
def World.booted (script : List Nat) : World (List Nat) (List Nat) :=
  { World.start script with st := { State.init with wifiInitialized := true } }

/-- A world in which the last beat was recorded at 10000 ms with a published
pulse of 75 bpm, and the sensor will next deliver the given IR readings. -/
def World.afterBeat (script : List Nat) : World (List Nat) (List Nat) :=
  { World.start script with
    st := { State.init with pulse := 75, beatDetected := true, lastBeat := 10000,
                            irValue := 30000 } }


/-! ## Arithmetic lemmas -/

/-- The specification-side `roundDiv` is rounding to the nearest integer. -/
theorem roundDiv_eq_round (a b : Nat) (hb : 0 < b) :
    ((roundDiv a b : Nat) : Int) = round ((a : ℚ) / (b : ℚ)) := by
  have hb0 : (b : ℚ) ≠ 0 := by exact_mod_cast hb.ne.symm
  have h : (a : ℚ) / (b : ℚ) + 1 / 2 = ((2 * a + b : Nat) : ℚ) / ((2 * b : Nat) : ℚ) := by
    push_cast
    field_simp
    ring
  rw [round_eq, h, Rat.floor_natCast_div_natCast]
  simp [roundDiv]

/-- Natural-number division is the floor of the rational quotient. -/
theorem natDiv_eq_floor (a b : Nat) :
    ((a / b : Nat) : Int) = ⌊(a : ℚ) / (b : ℚ)⌋ := by
  rw [Rat.floor_natCast_div_natCast]
  simp

/-! ## `readSensorData`: the three paths -/

theorem readSensorData_absent (api : Sensor Sn) (f : D → Nat → Bool × D) (now1 now2 : Nat)
    (w : World Sn D) (h : (api.getIR w.sn).1 < 25000) :
    readSensorData api f now1 now2 w =
      { w with sn := (api.getIR w.sn).2,
               st := { w.st with irValue := (api.getIR w.sn).1, beatDetected := false } } := by
  simp only [readSensorData, if_pos h]

theorem readSensorData_beat (api : Sensor Sn) (f : D → Nat → Bool × D) (now1 now2 : Nat)
    (w : World Sn D) (h : 25000 ≤ (api.getIR w.sn).1)
    (hb : (f w.det (api.getIR w.sn).1).1 = true) :
    readSensorData api f now1 now2 w =
      { sn := (api.getIR w.sn).2,
        det := (f w.det (api.getIR w.sn).1).2,
        beatCalls := w.beatCalls + 1,
        delays := w.delays,
        spo2Calls := w.spo2Calls,
        st :=
          if 300 < sub32 now1 w.st.lastBeat ∧ sub32 now1 w.st.lastBeat < 2000 then
            { w.st with irValue := (api.getIR w.sn).1, lastBeat := now2,
                        pulse := ((60000 / sub32 now1 w.st.lastBeat : Nat) : Int),
                        beatDetected := true }
          else { w.st with irValue := (api.getIR w.sn).1, lastBeat := now2 } } := by
  simp only [readSensorData, if_neg (not_lt.mpr h), hb, if_true]
  split <;> rfl

theorem readSensorData_nobeat (api : Sensor Sn) (f : D → Nat → Bool × D) (now1 now2 : Nat)
    (w : World Sn D) (h : 25000 ≤ (api.getIR w.sn).1)
    (hb : (f w.det (api.getIR w.sn).1).1 = false) :
    readSensorData api f now1 now2 w =
      { w with sn := (api.getIR w.sn).2,
               det := (f w.det (api.getIR w.sn).1).2,
               beatCalls := w.beatCalls + 1,
               st := { w.st with irValue := (api.getIR w.sn).1 } } := by
  simp only [readSensorData, if_neg (not_lt.mpr h), hb]
  rfl

/-! ## Set-alarm requests -/

/-- C1 (defect in the code): `handleSetAlarm` stores its arguments without any
range check.  With an alarm armed for 07:30 and triggered, the request
`h = 25, m = 0` overwrites the alarm with 25:00 and clears the triggered flag,
whereas the sibling handler `handleSetTime` ignores the same request. -/
theorem handleSetAlarm_stores_out_of_range :
    (handleSetAlarm (some 25) (some 0) triggered0730).alarmHour = 25
    ∧ (handleSetAlarm (some 25) (some 0) triggered0730).alarmMinute = 0
    ∧ (handleSetAlarm (some 25) (some 0) triggered0730).alarmTriggered = false
    ∧ triggered0730.alarmHour = 7 ∧ triggered0730.alarmMinute = 30
    ∧ triggered0730.alarmTriggered = true
    ∧ handleSetTime (some 25) (some 0) 1000 triggered0730 = triggered0730 := by
  decide

/-! ## Beat detection -/

/-- C2 (as stated, fails): with a finger present and a beat reported, an
interval of 700 ms gives pulse 85 although 60000/700 rounds to 86, and the
boundary intervals 300 ms and 2000 ms leave `beatDetected` false. -/
theorem pulse_round_counterexample :
    25000 ≤ (scriptSensor.getIR (World.start [30000]).sn).1
    ∧ (everyBeat (World.start [30000]).det 30000).1 = true
    ∧ sub32 700 (World.start [30000]).st.lastBeat = 700
    ∧ (readSensorData scriptSensor everyBeat 700 700 (World.start [30000])).st.pulse = 85
    ∧ round ((60000 : ℚ) / (700 : ℚ)) = 86
    ∧ sub32 300 (World.start [30000]).st.lastBeat = 300
    ∧ (readSensorData scriptSensor everyBeat 300 300 (World.start [30000])).st.beatDetected
        = false
    ∧ sub32 2000 (World.start [30000]).st.lastBeat = 2000
    ∧ (readSensorData scriptSensor everyBeat 2000 2000 (World.start [30000])).st.beatDetected
        = false := by
  refine ⟨by decide, by decide, by decide, by decide, ?_, by decide, by decide, by decide,
    by decide⟩
  have h := roundDiv_eq_round 60000 700 (by decide)
  have e : ((60000 : Nat) : ℚ) / ((700 : Nat) : ℚ) = (60000 : ℚ) / (700 : ℚ) := by norm_num
  rw [e] at h
  rw [← h]
  decide

/-- C2 (amended): for every inter-beat interval `Δ` with `300 < Δ < 2000`, when
`readSensorData` sees a finger (IR ≥ 25000) and the beat primitive reports a
beat, it sets `beatDetected` to true and `pulse` to the integer quotient
`60000 / Δ`, that is the floor of the exact quotient. -/
theorem pulse_is_floor_quotient (api : Sensor Sn) (f : D → Nat → Bool × D) (now1 now2 : Nat)
    (w : World Sn D) (hfinger : 25000 ≤ (api.getIR w.sn).1)
    (hbeat : (f w.det (api.getIR w.sn).1).1 = true)
    (hlo : 300 < sub32 now1 w.st.lastBeat) (hhi : sub32 now1 w.st.lastBeat < 2000) :
    (readSensorData api f now1 now2 w).st.beatDetected = true
    ∧ (readSensorData api f now1 now2 w).st.pulse
        = ((60000 / sub32 now1 w.st.lastBeat : Nat) : Int)
    ∧ (readSensorData api f now1 now2 w).st.pulse
        = ⌊(60000 : ℚ) / (sub32 now1 w.st.lastBeat : ℚ)⌋ := by
  have hq := natDiv_eq_floor 60000 (sub32 now1 w.st.lastBeat)
  rw [readSensorData_beat api f now1 now2 w hfinger hbeat, if_pos ⟨hlo, hhi⟩]
  refine ⟨rfl, rfl, ?_⟩
  simpa using hq

theorem pulse_is_floor_quotient_witness :
    (readSensorData scriptSensor everyBeat 700 700 (World.start [30000])).st.beatDetected = true
    ∧ (readSensorData scriptSensor everyBeat 700 700 (World.start [30000])).st.pulse
        = ((60000 / sub32 700 (World.start [30000]).st.lastBeat : Nat) : Int)
    ∧ (readSensorData scriptSensor everyBeat 700 700 (World.start [30000])).st.pulse
        = ⌊(60000 : ℚ) / (sub32 700 (World.start [30000]).st.lastBeat : ℚ)⌋ :=
  pulse_is_floor_quotient scriptSensor everyBeat 700 700 (World.start [30000])
    (by decide) (by decide) (by decide) (by decide)

/-- C3: for every prior state and every inter-beat interval `Δ < 300` or
`Δ > 2000`, a beat detected by `readSensorData` leaves `pulse` and
`beatDetected` as they were; of the globals only `lastBeat` (set to the current
time) and the stored sample `irValue` change. -/
theorem noise_rejection (api : Sensor Sn) (f : D → Nat → Bool × D) (now1 now2 : Nat)
    (w : World Sn D) (hfinger : 25000 ≤ (api.getIR w.sn).1)
    (hbeat : (f w.det (api.getIR w.sn).1).1 = true)
    (hΔ : sub32 now1 w.st.lastBeat < 300 ∨ 2000 < sub32 now1 w.st.lastBeat) :
    (readSensorData api f now1 now2 w).st.pulse = w.st.pulse
    ∧ (readSensorData api f now1 now2 w).st.beatDetected = w.st.beatDetected
    ∧ (readSensorData api f now1 now2 w).st.lastBeat = now2
    ∧ (readSensorData api f now1 now2 w).st
        = { w.st with irValue := (api.getIR w.sn).1, lastBeat := now2 } := by
  have hn : ¬ (300 < sub32 now1 w.st.lastBeat ∧ sub32 now1 w.st.lastBeat < 2000) := by omega
  rw [readSensorData_beat api f now1 now2 w hfinger hbeat, if_neg hn]
  exact ⟨rfl, rfl, rfl, rfl⟩

theorem noise_rejection_witness :
    (25000 ≤ (scriptSensor.getIR (World.afterBeat [30000]).sn).1
      ∧ (everyBeat (World.afterBeat [30000]).det 30000).1 = true
      ∧ sub32 10150 (World.afterBeat [30000]).st.lastBeat = 150)
    ∧ (readSensorData scriptSensor everyBeat 10150 10151 (World.afterBeat [30000])).st.pulse = 75
    ∧ (readSensorData scriptSensor everyBeat 10150 10151 (World.afterBeat [30000])).st.beatDetected
        = true
    ∧ (readSensorData scriptSensor everyBeat 10150 10151 (World.afterBeat [30000])).st.lastBeat
        = 10151 :=
  have h := noise_rejection scriptSensor everyBeat 10150 10151 (World.afterBeat [30000])
    (by decide) (by decide) (by decide)
  ⟨by decide, h.1, h.2.1, h.2.2.1⟩


/-! ## Finger-absent gating -/

/-- The display shows the finger-absent prompt exactly when no alarm is
triggered and the stored IR sample is below 25000. -/
theorem placeFinger_shown_iff (now stations : Nat) (s : State) :
    Item.placeFinger ∈ updateDisplay now stations s
      ↔ s.alarmTriggered = false ∧ s.irValue < 25000 := by
  unfold updateDisplay
  by_cases ha : s.alarmTriggered = true
  · by_cases hb : s.blinkState = true <;> simp [ha, hb]
  · by_cases hw : s.wifiInitialized = true <;> by_cases hi : s.irValue < 25000 <;>
      by_cases hh : 0 ≤ s.alarmHour <;> simp [ha, hw, hi, hh]

/-- The pulse published by `handleData` is 0 exactly when `beatDetected` is
false or `pulse` is 0; the stored IR sample is not consulted. -/
theorem handleData_pulse_zero_iff (now : Nat) (s : State) :
    (handleData now s).pulse = 0 ↔ s.beatDetected = false ∨ s.pulse = 0 := by
  show (if s.beatDetected = true then s.pulse else 0) = 0 ↔ _
  by_cases hb : s.beatDetected = true
  · rw [if_pos hb]
    constructor
    · intro h; exact Or.inr h
    · intro h
      rcases h with h | h
      · rw [hb] at h; exact absurd h (by decide)
      · exact h
  · rw [if_neg hb]
    exact ⟨fun _ => Or.inl (Bool.eq_false_iff.mpr hb), fun _ => rfl⟩

/-- C8 (as stated, fails): `irValue < 25000` is not the sole condition.  With
the alarm triggered, a call that polls IR 100 stores `irValue = 100` and the
display does not show the finger-absent prompt; and after a call that polls
IR 30000 without a beat, `irValue` is 30000 and `handleData` reports pulse 0. -/
theorem finger_absent_counterexample :
    (scriptSensor.getIR (World.ringing [100]).sn).1 < 25000
    ∧ (readSensorData scriptSensor everyBeat 10100 10101 (World.ringing [100])).st.irValue
        < 25000
    ∧ Item.placeFinger ∉ updateDisplay 10200 0
        (readSensorData scriptSensor everyBeat 10100 10101 (World.ringing [100])).st
    ∧ ¬ ((readSensorData scriptSensor neverBeat 5000 5001 (World.start [30000])).st.irValue
        < 25000)
    ∧ (handleData 5100
        (readSensorData scriptSensor neverBeat 5000 5001 (World.start [30000])).st).pulse = 0 := by
  decide

/-- C8 (amended): for every prior state, when the polled IR intensity is below
25000, `readSensorData` sets `beatDetected` to false, does not consult the beat
detector (its state and call count are unchanged and the outcome is the same
for every detector), and leaves `pulse` and `lastBeat` unchanged; the stored
`irValue` is then below 25000 and `handleData` reports pulse 0.  The display
shows the finger-absent prompt exactly when `irValue < 25000` and no alarm is
triggered, so after the call exactly when no alarm is triggered; `handleData`
reports pulse 0 exactly when `beatDetected` is false or `pulse` is 0. -/
theorem finger_absent_gating (api : Sensor Sn) (f : D → Nat → Bool × D) (now1 now2 : Nat)
    (w : World Sn D) (h : (api.getIR w.sn).1 < 25000) :
    (readSensorData api f now1 now2 w).st.beatDetected = false
    ∧ (readSensorData api f now1 now2 w).st.pulse = w.st.pulse
    ∧ (readSensorData api f now1 now2 w).st.lastBeat = w.st.lastBeat
    ∧ (readSensorData api f now1 now2 w).det = w.det
    ∧ (readSensorData api f now1 now2 w).beatCalls = w.beatCalls
    ∧ (∀ g : D → Nat → Bool × D,
        readSensorData api g now1 now2 w = readSensorData api f now1 now2 w)
    ∧ (readSensorData api f now1 now2 w).st.irValue = (api.getIR w.sn).1
    ∧ (readSensorData api f now1 now2 w).st.irValue < 25000
    ∧ (readSensorData api f now1 now2 w).st
        = { w.st with irValue := (api.getIR w.sn).1, beatDetected := false }
    ∧ (∀ now : Nat, (handleData now (readSensorData api f now1 now2 w).st).pulse = 0)
    ∧ (∀ now stations : Nat,
        Item.placeFinger ∈ updateDisplay now stations (readSensorData api f now1 now2 w).st
          ↔ w.st.alarmTriggered = false)
    ∧ (∀ (s : State) (now stations : Nat),
        Item.placeFinger ∈ updateDisplay now stations s
          ↔ s.alarmTriggered = false ∧ s.irValue < 25000)
    ∧ (∀ (s : State) (now : Nat),
        (handleData now s).pulse = 0 ↔ s.beatDetected = false ∨ s.pulse = 0) := by
  have e := readSensorData_absent api f now1 now2 w h
  refine ⟨?_, ?_, ?_, ?_, ?_, ?_, ?_, ?_, ?_, ?_, ?_, ?_, ?_⟩
  · rw [e]
  · rw [e]
  · rw [e]
  · rw [e]
  · rw [e]
  · intro g
    rw [e, readSensorData_absent api g now1 now2 w h]
  · rw [e]
  · rw [e]
    exact h
  · rw [e]
  · intro now
    rw [handleData_pulse_zero_iff, e]
    exact Or.inl rfl
  · intro now stations
    rw [placeFinger_shown_iff, e]
    exact ⟨fun c => c.1, fun c => ⟨c, h⟩⟩
  · intro s now stations
    exact placeFinger_shown_iff now stations s
  · intro s now
    exact handleData_pulse_zero_iff now s

theorem finger_absent_gating_witness :
    (scriptSensor.getIR (World.afterBeat [100, 30000]).sn).1 < 25000
    ∧ (readSensorData scriptSensor everyBeat 10100 10101
        (World.afterBeat [100, 30000])).st.beatDetected = false
    ∧ (readSensorData scriptSensor everyBeat 10100 10101
        (World.afterBeat [100, 30000])).st.pulse = 75
    ∧ (readSensorData scriptSensor everyBeat 10100 10101
        (World.afterBeat [100, 30000])).st.lastBeat = 10000
    ∧ (readSensorData scriptSensor everyBeat 10100 10101
        (World.afterBeat [100, 30000])).det = []
    ∧ Item.placeFinger ∈ updateDisplay 10200 0
        (readSensorData scriptSensor everyBeat 10100 10101 (World.afterBeat [100, 30000])).st :=
  have h := finger_absent_gating scriptSensor everyBeat 10100 10101
    (World.afterBeat [100, 30000]) (by decide)
  ⟨by decide, h.1, h.2.1, h.2.2.1, h.2.2.2.1,
    (h.2.2.2.2.2.2.2.2.2.2.1 10200 0).mpr (by decide)⟩

/-! ## First beat after startup or after a finger-removal episode -/

/-- C10 (as stated, fails): the last beat was recorded at 10000 ms with pulse
75; one call at 10100 ms sees no finger; the first beat after that episode, at
10900 ms, is reported as a rate: `pulse` becomes `60000 / 900 = 66` and
`beatDetected` becomes true. -/
theorem first_beat_counterexample :
    allAbsent scriptSensor everyBeat (World.afterBeat [100, 30000]) [(10100, 10101)] = true
    ∧ (readMany scriptSensor everyBeat (World.afterBeat [100, 30000])
        [(10100, 10101)]).st.beatDetected = false
    ∧ (readMany scriptSensor everyBeat (World.afterBeat [100, 30000])
        [(10100, 10101)]).st.pulse = 75
    ∧ (readSensorData scriptSensor everyBeat 10900 10901
        (readMany scriptSensor everyBeat (World.afterBeat [100, 30000])
          [(10100, 10101)])).st.pulse = 66
    ∧ (readSensorData scriptSensor everyBeat 10900 10901
        (readMany scriptSensor everyBeat (World.afterBeat [100, 30000])
          [(10100, 10101)])).st.beatDetected = true
    ∧ (readSensorData scriptSensor everyBeat 10900 10901
        (readMany scriptSensor everyBeat (World.afterBeat [100, 30000])
          [(10100, 10101)])).st.lastBeat = 10901 := by
  decide

/-! ## Clock and alarm -/

/-- A set-time request with `h` in 0..23 and `m` in 0..59 rebases `timeBase`. -/
theorem handleSetTime_valid (h m now : Nat) (s : State) (hh : h < 24) (hm : m < 60) :
    handleSetTime (some (h : Int)) (some (m : Int)) now s
      = { s with timeBase := sub32 now (h * 3600000 + m * 60000) } := by
  have c : (0 : Int) ≤ (h : Int) ∧ (h : Int) < 24 ∧ (0 : Int) ≤ (m : Int) ∧ (m : Int) < 60 := by
    omega
  have e : (h * 3600000 + m * 60000) % UL = h * 3600000 + m * 60000 := by
    unfold UL
    omega
  simp only [handleSetTime, if_pos c, Int.toNat_ofNat, e]

/-- Elapsed time read `e` milliseconds after a valid set-time request. -/
theorem elapsed_after_setTime (off now0 e : Nat) :
    sub32 ((now0 + e) % UL) (sub32 now0 off) = (off + e) % UL := by
  unfold sub32 UL
  omega

/-- Elapsed time read at the very reading of the set-time request. -/
theorem elapsed_at_setTime (off now0 : Nat) :
    sub32 now0 (sub32 now0 off) = off % UL := by
  unfold sub32 UL
  omega

theorem checkAlarmState_triggered (now1 now2 : Nat) (s : State)
    (h : s.alarmTriggered = true) :
    checkAlarmState now1 now2 s = s
    ∨ checkAlarmState now1 now2 s = { s with blinkState := !s.blinkState, lastBlink := now2 } := by
  unfold checkAlarmState
  rw [if_pos h]
  by_cases c : 500 < sub32 now1 s.lastBlink
  · right; rw [if_pos c]
  · left; rw [if_neg c]

theorem handleSetTime_timeBase_only (h m : Option Int) (now : Nat) (s : State) :
    ∃ tb, handleSetTime h m now s = { s with timeBase := tb } := by
  unfold handleSetTime
  cases h with
  | none => exact ⟨s.timeBase, rfl⟩
  | some hv =>
    cases m with
    | none => exact ⟨s.timeBase, rfl⟩
    | some mv =>
      by_cases c : 0 ≤ hv ∧ hv < 24 ∧ 0 ≤ mv ∧ mv < 60
      · exact ⟨sub32 now ((hv.toNat * 3600000 + mv.toNat * 60000) % UL), by
          simp only [if_pos c]⟩
      · exact ⟨s.timeBase, by simp only [if_neg c]⟩

/-- While the alarm is triggered, a clock event changes at most `blinkState`,
`lastBlink` and `timeBase`. -/
theorem clockStep_triggered (s : State) (ev : ClockEvent) (h : s.alarmTriggered = true) :
    ∃ b l tb, clockStep s ev = { s with blinkState := b, lastBlink := l, timeBase := tb } := by
  cases ev with
  | check now1 now2 =>
    rcases checkAlarmState_triggered now1 now2 s h with e | e
    · exact ⟨s.blinkState, s.lastBlink, s.timeBase, e⟩
    · exact ⟨!s.blinkState, now2, s.timeBase, e⟩
  | setTime hh mm now =>
    obtain ⟨tb, e⟩ := handleSetTime_timeBase_only hh mm now s
    exact ⟨s.blinkState, s.lastBlink, tb, e⟩

theorem runClock_triggered (evs : List ClockEvent) :
    ∀ s : State, s.alarmTriggered = true →
      ∃ b l tb, runClock s evs = { s with blinkState := b, lastBlink := l, timeBase := tb } := by
  induction evs with
  | nil => intro s _; exact ⟨s.blinkState, s.lastBlink, s.timeBase, rfl⟩
  | cons ev evs ih =>
    intro s h
    obtain ⟨b, l, tb, e⟩ := clockStep_triggered s ev h
    have h1 : (clockStep s ev).alarmTriggered = true := by rw [e]; exact h
    obtain ⟨b2, l2, tb2, e2⟩ := ih (clockStep s ev) h1
    refine ⟨b2, l2, tb2, ?_⟩
    show runClock (clockStep s ev) evs = _
    rw [e2, e]

/-- C5: once `alarmTriggered` is true, every sequence of `checkAlarmState`
calls and `handleSetTime` requests, at arbitrary `millis()` readings, leaves
`alarmTriggered` true and `alarmHour`, `alarmMinute` unchanged; a call of
`checkAlarmState` in that state changes at most `blinkState` and `lastBlink`,
and the whole sequence changes at most those two and `timeBase`. -/
theorem triggered_stays_triggered (s : State) (evs : List ClockEvent)
    (h : s.alarmTriggered = true) :
    (runClock s evs).alarmTriggered = true
    ∧ (runClock s evs).alarmHour = s.alarmHour
    ∧ (runClock s evs).alarmMinute = s.alarmMinute
    ∧ (∃ b l tb, runClock s evs = { s with blinkState := b, lastBlink := l, timeBase := tb })
    ∧ (∀ now1 now2 : Nat,
        ∃ b l, checkAlarmState now1 now2 s = { s with blinkState := b, lastBlink := l }) := by
  obtain ⟨b, l, tb, e⟩ := runClock_triggered evs s h
  refine ⟨by rw [e]; exact h, by rw [e], by rw [e], ⟨b, l, tb, e⟩, ?_⟩
  intro now1 now2
  rcases checkAlarmState_triggered now1 now2 s h with e1 | e1
  · exact ⟨s.blinkState, s.lastBlink, e1⟩
  · exact ⟨!s.blinkState, now2, e1⟩

theorem triggered_stays_triggered_witness :
    triggered0730.alarmTriggered = true
    ∧ (runClock triggered0730
        [ClockEvent.check 27000000 27000001, ClockEvent.setTime (some 7) (some 30) 27000500,
         ClockEvent.check 27001000 27001001]).alarmTriggered = true
    ∧ (runClock triggered0730
        [ClockEvent.check 27000000 27000001, ClockEvent.setTime (some 7) (some 30) 27000500,
         ClockEvent.check 27001000 27001001]).alarmHour = 7
    ∧ (runClock triggered0730
        [ClockEvent.check 27000000 27000001, ClockEvent.setTime (some 7) (some 30) 27000500,
         ClockEvent.check 27001000 27001001]).alarmMinute = 30 :=
  have h := triggered_stays_triggered triggered0730
    [ClockEvent.check 27000000 27000001, ClockEvent.setTime (some 7) (some 30) 27000500,
     ClockEvent.check 27001000 27001001] (by decide)
  ⟨by decide, h.1, h.2.1, h.2.2.1⟩

/-- C6 (as stated, fails): the time is set to 00:00 when `millis()` reads 1000
and `2^32` ms elapse; the counter then reads 1000 again and the derived time is
00:00, whereas 00:00 advanced by `2^32` ms modulo 24 hours is 17:02. -/
theorem clock_wrap_counterexample :
    (handleData ((1000 + 4294967296) % UL)
        (handleSetTime (some 0) (some 0) 1000 State.init)).hour = 0
    ∧ (handleData ((1000 + 4294967296) % UL)
        (handleSetTime (some 0) (some 0) 1000 State.init)).minute = 0
    ∧ (0 * 3600000 + 0 * 60000 + 4294967296) / 3600000 % 24 = 17
    ∧ (0 * 3600000 + 0 * 60000 + 4294967296) / 60000 % 60 = 2 := by
  decide

/-- C6 (amended): for every valid set-time request (`h` in 0..23, `m` in 0..59)
made at any reading of the 32-bit `millis()` counter, and for every number `e`
of milliseconds elapsed afterwards with `h*3600000 + m*60000 + e < 2^32`, the
derived hour and minute are those of `h:m` advanced by `e` ms modulo 24 hours;
without the bound they are derived from `(h*3600000 + m*60000 + e) mod 2^32`.
Set to 23:59, 120000 ms later the time reads 00:01; with `e = 0` it is `h:m`. -/
theorem clock_wraps_at_24h (h m now0 e : Nat) (s : State) (hh : h < 24) (hm : m < 60)
    (hbound : h * 3600000 + m * 60000 + e < UL) :
    (handleData ((now0 + e) % UL) (handleSetTime (some (h : Int)) (some (m : Int)) now0 s)).hour
        = (((h * 3600000 + m * 60000 + e) / 3600000 % 24 : Nat) : Int)
    ∧ (handleData ((now0 + e) % UL)
        (handleSetTime (some (h : Int)) (some (m : Int)) now0 s)).minute
        = (((h * 3600000 + m * 60000 + e) / 60000 % 60 : Nat) : Int)
    ∧ (∀ e2 : Nat,
        (handleData ((now0 + e2) % UL)
          (handleSetTime (some (h : Int)) (some (m : Int)) now0 s)).hour
          = ((((h * 3600000 + m * 60000 + e2) % UL) / 3600000 % 24 : Nat) : Int)
        ∧ (handleData ((now0 + e2) % UL)
          (handleSetTime (some (h : Int)) (some (m : Int)) now0 s)).minute
          = ((((h * 3600000 + m * 60000 + e2) % UL) / 60000 % 60 : Nat) : Int))
    ∧ (handleData now0 (handleSetTime (some (h : Int)) (some (m : Int)) now0 s)).hour = (h : Int)
    ∧ (handleData now0 (handleSetTime (some (h : Int)) (some (m : Int)) now0 s)).minute
        = (m : Int)
    ∧ (handleData ((now0 + 120000) % UL) (handleSetTime (some 23) (some 59) now0 s)).hour = 0
    ∧ (handleData ((now0 + 120000) % UL) (handleSetTime (some 23) (some 59) now0 s)).minute
        = 1 := by
  have gen : ∀ (h m e2 : Nat), h < 24 → m < 60 →
      (handleData ((now0 + e2) % UL)
          (handleSetTime (some (h : Int)) (some (m : Int)) now0 s)).hour
          = ((((h * 3600000 + m * 60000 + e2) % UL) / 3600000 % 24 : Nat) : Int)
        ∧ (handleData ((now0 + e2) % UL)
          (handleSetTime (some (h : Int)) (some (m : Int)) now0 s)).minute
          = ((((h * 3600000 + m * 60000 + e2) % UL) / 60000 % 60 : Nat) : Int) := by
    intro h m e2 hh hm
    rw [handleSetTime_valid h m now0 s hh hm]
    have el := elapsed_after_setTime (h * 3600000 + m * 60000) now0 e2
    constructor
    · show hourOf (sub32 ((now0 + e2) % UL) (sub32 now0 (h * 3600000 + m * 60000))) = _
      rw [el]
      rfl
    · show minuteOf (sub32 ((now0 + e2) % UL) (sub32 now0 (h * 3600000 + m * 60000))) = _
      rw [el]
      rfl
  have g1 := gen h m e hh hm
  have g2 := gen 23 59 120000 (by decide) (by decide)
  have b0 : (h * 3600000 + m * 60000) % UL = h * 3600000 + m * 60000 := by
    unfold UL at *
    omega
  have b1 : (h * 3600000 + m * 60000 + e) % UL = h * 3600000 + m * 60000 + e :=
    Nat.mod_eq_of_lt hbound
  rw [b1] at g1
  have c1 : (h * 3600000 + m * 60000) / 3600000 % 24 = h := by omega
  have c2 : (h * 3600000 + m * 60000) / 60000 % 60 = m := by omega
  have z := elapsed_at_setTime (h * 3600000 + m * 60000) now0
  rw [b0] at z
  refine ⟨g1.1, g1.2, fun e2 => gen h m e2 hh hm, ?_, ?_, ?_, ?_⟩
  · rw [handleSetTime_valid h m now0 s hh hm]
    show hourOf (sub32 now0 (sub32 now0 (h * 3600000 + m * 60000))) = _
    rw [z]
    unfold hourOf
    rw [c1]
  · rw [handleSetTime_valid h m now0 s hh hm]
    show minuteOf (sub32 now0 (sub32 now0 (h * 3600000 + m * 60000))) = _
    rw [z]
    unfold minuteOf
    rw [c2]
  · rw [show ((23 : Nat) : Int) = 23 from rfl, show ((59 : Nat) : Int) = 59 from rfl] at g2
    rw [g2.1]
    decide
  · rw [show ((23 : Nat) : Int) = 23 from rfl, show ((59 : Nat) : Int) = 59 from rfl] at g2
    rw [g2.2]
    decide

theorem clock_wraps_at_24h_witness :
    (handleData ((5000 + 120000) % UL)
        (handleSetTime (some ((23 : Nat) : Int)) (some ((59 : Nat) : Int)) 5000 State.init)).hour
      = (((23 * 3600000 + 59 * 60000 + 120000) / 3600000 % 24 : Nat) : Int)
    ∧ (handleData ((5000 + 120000) % UL)
        (handleSetTime (some ((23 : Nat) : Int)) (some ((59 : Nat) : Int)) 5000
          State.init)).minute
      = (((23 * 3600000 + 59 * 60000 + 120000) / 60000 % 60 : Nat) : Int) :=
  have h := clock_wraps_at_24h 23 59 5000 120000 State.init (by decide) (by decide)
    (by decide)
  ⟨h.1, h.2.1⟩


/-- C7: for every state with `alarmTriggered = false` and an armed alarm
(`alarmHour` in 0..23, `alarmMinute` in 0..59), one call of `checkAlarmState`
yields `alarmTriggered = true` if and only if the derived hour
`(millis() - timeBase) / 3600000 mod 24` equals `alarmHour` and the derived
minute `(millis() - timeBase) / 60000 mod 60` equals `alarmMinute`; with no
alarm set (`alarmHour = -1`) the call never triggers.  Armed for 00:00 with the
clock set to 23:58, there is no trigger for elapsed times below 120000 ms and a
trigger at 120000 ms. -/
theorem alarm_triggers_exactly_on_match (now1 now2 : Nat) (s : State)
    (hnot : s.alarmTriggered = false) :
    (0 ≤ s.alarmHour ∧ s.alarmHour < 24 → 0 ≤ s.alarmMinute ∧ s.alarmMinute < 60 →
      ((checkAlarmState now1 now2 s).alarmTriggered = true
        ↔ ((sub32 now1 s.timeBase / 3600000 % 24 : Nat) : Int) = s.alarmHour
          ∧ ((sub32 now1 s.timeBase / 60000 % 60 : Nat) : Int) = s.alarmMinute))
    ∧ (s.alarmHour = -1 → (checkAlarmState now1 now2 s).alarmTriggered = false)
    ∧ (∀ now0 e : Nat, e ≤ 120000 →
        ((checkAlarmState ((now0 + e) % UL) now2
            (handleSetAlarm (some 0) (some 0)
              (handleSetTime (some 23) (some 58) now0 s))).alarmTriggered = true
          ↔ e = 120000)) := by
  have key : ∀ (n : Nat) (t : State), t.alarmTriggered = false → 0 ≤ t.alarmHour →
      ((checkAlarmState n now2 t).alarmTriggered = true
        ↔ ((sub32 n t.timeBase / 3600000 % 24 : Nat) : Int) = t.alarmHour
          ∧ ((sub32 n t.timeBase / 60000 % 60 : Nat) : Int) = t.alarmMinute) := by
    intro n t ht hh
    have h1 : ¬ (t.alarmTriggered = true) := by rw [ht]; decide
    unfold checkAlarmState
    rw [if_neg h1, if_pos hh]
    by_cases c : hourOf (sub32 n t.timeBase) = t.alarmHour
        ∧ minuteOf (sub32 n t.timeBase) = t.alarmMinute
    · rw [if_pos c]
      exact ⟨fun _ => c, fun _ => rfl⟩
    · rw [if_neg c]
      constructor
      · intro h; rw [ht] at h; exact absurd h (by decide)
      · intro h; exact absurd h c
  refine ⟨fun hh _ => key now1 s hnot hh.1, ?_, ?_⟩
  · intro hu
    have h1 : ¬ (s.alarmTriggered = true) := by rw [hnot]; decide
    have h2 : ¬ (0 ≤ s.alarmHour) := by rw [hu]; decide
    unfold checkAlarmState
    rw [if_neg h1, if_neg h2]
    exact hnot
  · intro now0 e he
    have hv := handleSetTime_valid 23 58 now0 s (by decide) (by decide)
    rw [show ((23 : Nat) : Int) = 23 from rfl, show ((58 : Nat) : Int) = 58 from rfl] at hv
    rw [hv]
    have el := elapsed_after_setTime (23 * 3600000 + 58 * 60000) now0 e
    have k := key ((now0 + e) % UL)
      (handleSetAlarm (some 0) (some 0)
        { s with timeBase := sub32 now0 (23 * 3600000 + 58 * 60000) }) rfl (le_refl (0 : Int))
    rw [k]
    show ((sub32 ((now0 + e) % UL) (sub32 now0 (23 * 3600000 + 58 * 60000)) / 3600000 % 24
        : Nat) : Int) = 0
      ∧ ((sub32 ((now0 + e) % UL) (sub32 now0 (23 * 3600000 + 58 * 60000)) / 60000 % 60
        : Nat) : Int) = 0 ↔ e = 120000
    rw [el]
    unfold UL
    omega

theorem alarm_triggers_exactly_on_match_witness :
    (handleSetAlarm (some 0) (some 0)
        (handleSetTime (some 23) (some 58) 5000 State.init)).alarmTriggered = false
    ∧ (checkAlarmState 125000 125000
        (handleSetAlarm (some 0) (some 0)
          (handleSetTime (some 23) (some 58) 5000 State.init))).alarmTriggered = true
    ∧ (checkAlarmState 124999 124999
        (handleSetAlarm (some 0) (some 0)
          (handleSetTime (some 23) (some 58) 5000 State.init))).alarmTriggered ≠ true
    ∧ (checkAlarmState 125000 125000 State.init).alarmTriggered = false :=
  ⟨by decide,
   ((alarm_triggers_exactly_on_match 125000 125000
      (handleSetAlarm (some 0) (some 0) (handleSetTime (some 23) (some 58) 5000 State.init))
      (by decide)).1 (by decide) (by decide)).mpr (by decide),
   fun h => absurd
    (((alarm_triggers_exactly_on_match 124999 124999
      (handleSetAlarm (some 0) (some 0) (handleSetTime (some 23) (some 58) 5000 State.init))
      (by decide)).1 (by decide) (by decide)).mp h) (by decide),
   (alarm_triggers_exactly_on_match 125000 125000 State.init (by decide)).2.1 (by decide)⟩


/-! ## SpO2 estimation: the sample window -/

/-- The wait loop makes at most as many `delay(1)` calls as its budget. -/
theorem waitSample_delays (api : Sensor Sn) (k : Nat) :
    ∀ p : Sn × Nat, p.2 ≤ (waitSample api k p).2 ∧ (waitSample api k p).2 ≤ p.2 + k := by
  induction k with
  | zero => intro p; exact ⟨le_refl _, le_refl _⟩
  | succ k ih =>
    intro p
    unfold waitSample
    by_cases c : api.available p.1 = 0
    · rw [if_pos c]
      have h := ih (api.check p.1, p.2 + 1)
      simp only at h
      omega
    · rw [if_neg c]
      omega

/-- A sensor that stays unavailable makes the wait loop use its whole budget. -/
theorem waitSample_unavailable (api : Sensor Sn) (k : Nat) :
    ∀ (sn : Sn) (d : Nat), (∀ j, j ≤ k → api.available (api.check^[j] sn) = 0) →
      waitSample api k (sn, d) = (api.check^[k] sn, d + k) := by
  induction k with
  | zero => intro sn d _; rfl
  | succ k ih =>
    intro sn d h
    have h0 : api.available sn = 0 := h 0 (Nat.zero_le _)
    have hrest : ∀ j, j ≤ k → api.available (api.check^[j] (api.check sn)) = 0 := by
      intro j hj
      have := h (j + 1) (Nat.succ_le_succ hj)
      rwa [Function.iterate_succ_apply] at this
    unfold waitSample
    rw [if_pos h0, ih (api.check sn) (d + 1) hrest, Function.iterate_succ_apply]
    congr 1
    omega

theorem fillFrom_succ (api : Sensor Sn) (n i : Nat) (w : World Sn D) :
    fillFrom api (n + 1) i w
      = if api.available (waitSample api 50 (w.sn, w.delays)).1 ≠ 0 then
          fillFrom api n (i + 1)
            (takeSample api i w (waitSample api 50 (w.sn, w.delays)).1
              (waitSample api 50 (w.sn, w.delays)).2)
        else
          (false, { w with sn := (waitSample api 50 (w.sn, w.delays)).1,
                           delays := (waitSample api 50 (w.sn, w.delays)).2 }) := rfl

/-- The window loop touches only the two sample buffers, the driver state and
the delay counter. -/
theorem fillFrom_frame (api : Sensor Sn) (n : Nat) :
    ∀ (i : Nat) (w : World Sn D),
      (∃ rb ib, (fillFrom api n i w).2.st = { w.st with redBuffer := rb, irBuffer := ib })
      ∧ (fillFrom api n i w).2.det = w.det
      ∧ (fillFrom api n i w).2.beatCalls = w.beatCalls
      ∧ (fillFrom api n i w).2.spo2Calls = w.spo2Calls
      ∧ (fillFrom api n i w).2.delays ≤ w.delays + 50 * n := by
  induction n with
  | zero => intro i w; exact ⟨⟨w.st.redBuffer, w.st.irBuffer, rfl⟩, rfl, rfl, rfl, le_refl _⟩
  | succ n ih =>
    intro i w
    have hd := (waitSample_delays api 50 (w.sn, w.delays)).2
    rw [fillFrom_succ]
    by_cases c : api.available (waitSample api 50 (w.sn, w.delays)).1 ≠ 0
    · rw [if_pos c]
      obtain ⟨⟨rb, ib, e⟩, h2, h3, h4, h5⟩ := ih (i + 1)
        (takeSample api i w (waitSample api 50 (w.sn, w.delays)).1
          (waitSample api 50 (w.sn, w.delays)).2)
      refine ⟨⟨rb, ib, ?_⟩, h2, h3, h4, ?_⟩
      · rw [e]
        rfl
      · have e5 : (takeSample api i w (waitSample api 50 (w.sn, w.delays)).1
            (waitSample api 50 (w.sn, w.delays)).2).delays
            = (waitSample api 50 (w.sn, w.delays)).2 := rfl
        rw [e5] at h5
        have hd2 : (waitSample api 50 (w.sn, w.delays)).2 ≤ w.delays + 50 := hd
        omega
    · rw [if_neg c]
      have hd2 : (waitSample api 50 (w.sn, w.delays)).2 ≤ w.delays + 50 := hd
      refine ⟨⟨w.st.redBuffer, w.st.irBuffer, rfl⟩, rfl, rfl, rfl, ?_⟩
      show (waitSample api 50 (w.sn, w.delays)).2 ≤ w.delays + 50 * (n + 1)
      omega

/-- Running `a + b` iterations is running `a` and, unless aborted, `b` more. -/
theorem fillFrom_add (api : Sensor Sn) (a b : Nat) :
    ∀ (i : Nat) (w : World Sn D),
      fillFrom api (a + b) i w
        = if (fillFrom api a i w).1 then fillFrom api b (i + a) (fillFrom api a i w).2
          else fillFrom api a i w := by
  induction a with
  | zero =>
    intro i w
    rw [Nat.zero_add]
    rfl
  | succ a ih =>
    intro i w
    rw [show a + 1 + b = (a + b) + 1 by omega, fillFrom_succ, fillFrom_succ]
    by_cases c : api.available (waitSample api 50 (w.sn, w.delays)).1 ≠ 0
    · rw [if_pos c, if_pos c, ih, show i + 1 + a = i + (a + 1) by omega]
    · rw [if_neg c, if_neg c]
      rfl

/-- A slot whose sample stays unavailable through the retry budget aborts the
window loop. -/
theorem fillFrom_abort (api : Sensor Sn) (n i : Nat) (w : World Sn D)
    (h : ∀ j, j ≤ 50 → api.available (api.check^[j] w.sn) = 0) :
    (fillFrom api (n + 1) i w).1 = false
    ∧ (fillFrom api (n + 1) i w).2.st = w.st
    ∧ (fillFrom api (n + 1) i w).2.delays = w.delays + 50 := by
  have hw := waitSample_unavailable api 50 w.sn w.delays h
  have c : ¬ (api.available (waitSample api 50 (w.sn, w.delays)).1 ≠ 0) := by
    rw [hw]
    exact not_not.mpr (h 50 (le_refl _))
  rw [fillFrom_succ, if_neg c, hw]
  exact ⟨rfl, rfl, rfl⟩


/-! ## SpO2 estimation: the three outcomes of `calculateSpO2` -/

theorem calculateSpO2_absent (api : Sensor Sn) (maxim : List Nat → List Nat → MaximOut)
    (w : World Sn D) (h : (api.getIR w.sn).1 < 25000) :
    calculateSpO2 api maxim w = { w with sn := (api.getIR w.sn).2 } := by
  simp only [calculateSpO2, if_pos h]

theorem calculateSpO2_abort (api : Sensor Sn) (maxim : List Nat → List Nat → MaximOut)
    (w : World Sn D) (h : 25000 ≤ (api.getIR w.sn).1)
    (hf : (fillFrom api 100 0 { w with sn := (api.getIR w.sn).2 }).1 = false) :
    calculateSpO2 api maxim w = (fillFrom api 100 0 { w with sn := (api.getIR w.sn).2 }).2 := by
  simp only [calculateSpO2, if_neg (not_lt.mpr h), hf]
  rfl

theorem calculateSpO2_complete (api : Sensor Sn) (maxim : List Nat → List Nat → MaximOut)
    (w : World Sn D) (h : 25000 ≤ (api.getIR w.sn).1)
    (hf : (fillFrom api 100 0 { w with sn := (api.getIR w.sn).2 }).1 = true) :
    (calculateSpO2 api maxim w).st.spo2
        = (if (maxim (fillFrom api 100 0 { w with sn := (api.getIR w.sn).2 }).2.st.irBuffer
                (fillFrom api 100 0 { w with sn := (api.getIR w.sn).2 }).2.st.redBuffer).validSpO2
                ≠ 0
              ∧ 0 < (maxim (fillFrom api 100 0 { w with sn := (api.getIR w.sn).2 }).2.st.irBuffer
                (fillFrom api 100 0 { w with sn := (api.getIR w.sn).2 }).2.st.redBuffer).spo2Val
              ∧ (maxim (fillFrom api 100 0 { w with sn := (api.getIR w.sn).2 }).2.st.irBuffer
                (fillFrom api 100 0 { w with sn := (api.getIR w.sn).2 }).2.st.redBuffer).spo2Val
                ≤ 100
           then
             (maxim (fillFrom api 100 0 { w with sn := (api.getIR w.sn).2 }).2.st.irBuffer
                (fillFrom api 100 0 { w with sn := (api.getIR w.sn).2 }).2.st.redBuffer).spo2Val
           else w.st.spo2)
    ∧ (calculateSpO2 api maxim w).spo2Calls = w.spo2Calls + 1 := by
  obtain ⟨⟨rb, ib, e⟩, _, _, h4, _⟩ :=
    fillFrom_frame api 100 0 ({ w with sn := (api.getIR w.sn).2 } : World Sn D)
  have e2 : (fillFrom api 100 0 ({ w with sn := (api.getIR w.sn).2 } : World Sn D)).2.st.spo2
      = w.st.spo2 := by rw [e]
  simp only [calculateSpO2, if_neg (not_lt.mpr h), hf, if_true]
  constructor
  · split
    · rfl
    · exact e2
  · split <;> exact congrArg (· + 1) h4

/-- A call of `calculateSpO2` leaves `spo2` as it was or sets it to a value in
`1..100`. -/
theorem calculateSpO2_spo2 (api : Sensor Sn) (maxim : List Nat → List Nat → MaximOut)
    (w : World Sn D) :
    (calculateSpO2 api maxim w).st.spo2 = w.st.spo2
    ∨ (0 < (calculateSpO2 api maxim w).st.spo2 ∧ (calculateSpO2 api maxim w).st.spo2 ≤ 100) := by
  by_cases h : (api.getIR w.sn).1 < 25000
  · left
    rw [calculateSpO2_absent api maxim w h]
  · by_cases hf : (fillFrom api 100 0 ({ w with sn := (api.getIR w.sn).2 } : World Sn D)).1 = true
    · have hc := (calculateSpO2_complete api maxim w (not_lt.mp h) hf).1
      rw [hc]
      split
      · rename_i c
        exact Or.inr c.2
      · exact Or.inl rfl
    · obtain ⟨⟨rb, ib, e⟩, _⟩ :=
        fillFrom_frame api 100 0 ({ w with sn := (api.getIR w.sn).2 } : World Sn D)
      left
      rw [calculateSpO2_abort api maxim w (not_lt.mp h) (Bool.eq_false_iff.mpr hf), e]

theorem readSensorData_spo2 (api : Sensor Sn) (f : D → Nat → Bool × D) (now1 now2 : Nat)
    (w : World Sn D) : (readSensorData api f now1 now2 w).st.spo2 = w.st.spo2 := by
  by_cases h : (api.getIR w.sn).1 < 25000
  · rw [readSensorData_absent api f now1 now2 w h]
  · by_cases hb : (f w.det (api.getIR w.sn).1).1 = true
    · rw [readSensorData_beat api f now1 now2 w (not_lt.mp h) hb]
      show (if _ then _ else _ : State).spo2 = _
      split <;> rfl
    · rw [readSensorData_nobeat api f now1 now2 w (not_lt.mp h) (Bool.eq_false_iff.mpr hb)]

theorem checkAlarmState_spo2 (now1 now2 : Nat) (s : State) :
    (checkAlarmState now1 now2 s).spo2 = s.spo2 := by
  unfold checkAlarmState
  split
  · split <;> rfl
  · split
    · dsimp only
      split <;> rfl
    · rfl

/-- Every operation leaves `spo2` as it was or sets it to a value in `1..100`. -/
theorem step_spo2 (api : Sensor Sn) (f : D → Nat → Bool × D)
    (maxim : List Nat → List Nat → MaximOut) (w : World Sn D) (op : Op Sn) :
    (step api f maxim w op).st.spo2 = w.st.spo2
    ∨ (0 < (step api f maxim w op).st.spo2 ∧ (step api f maxim w op).st.spo2 ≤ 100) := by
  cases op with
  | readSensor now1 now2 => exact Or.inl (readSensorData_spo2 api f now1 now2 w)
  | calcSpO2 => exact calculateSpO2_spo2 api maxim w
  | checkAlarm now1 now2 => exact Or.inl (checkAlarmState_spo2 now1 now2 w.st)
  | setTime h m now =>
    obtain ⟨tb, e⟩ := handleSetTime_timeBase_only h m now w.st
    left
    show (handleSetTime h m now w.st).spo2 = _
    rw [e]
  | setAlarm h m =>
    left
    show (handleSetAlarm h m w.st).spo2 = _
    unfold handleSetAlarm
    split <;> rfl
  | clearAlarm => exact Or.inl rfl
  | hardware sn => exact Or.inl rfl

/-- The range `0..100` of `spo2` is preserved by every sequence of operations. -/
theorem run_spo2_range (api : Sensor Sn) (f : D → Nat → Bool × D)
    (maxim : List Nat → List Nat → MaximOut) (ops : List (Op Sn)) :
    ∀ w : World Sn D, 0 ≤ w.st.spo2 ∧ w.st.spo2 ≤ 100 →
      0 ≤ (run api f maxim w ops).st.spo2 ∧ (run api f maxim w ops).st.spo2 ≤ 100 := by
  induction ops with
  | nil => intro w h; exact h
  | cons op ops ih =>
    intro w h
    show 0 ≤ (run api f maxim (step api f maxim w op) ops).st.spo2
      ∧ (run api f maxim (step api f maxim w op) ops).st.spo2 ≤ 100
    apply ih
    rcases step_spo2 api f maxim w op with e | e
    · rw [e]; exact h
    · exact ⟨le_of_lt e.1, e.2⟩


/-! ## SpO2 estimation: commit rule and window abort -/

/-- C4: after a complete 100-sample window, `calculateSpO2` sets `spo2` to the
primitive's result when the validity flag is non-zero and `0 < result ≤ 100`,
and for every other (validity, result) pair leaves `spo2` as it was before the
call; the primitive is called once.  Consequently, starting from `spo2 = 0`,
`spo2` stays within `0..100` after any sequence of operations, in particular
after any number of estimation cycles. -/
theorem spo2_is_sticky (api : Sensor Sn) (maxim : List Nat → List Nat → MaximOut)
    (w : World Sn D) :
    (25000 ≤ (api.getIR w.sn).1 →
      (fillFrom api 100 0 { w with sn := (api.getIR w.sn).2 }).1 = true →
      ((maxim (fillFrom api 100 0 { w with sn := (api.getIR w.sn).2 }).2.st.irBuffer
            (fillFrom api 100 0 { w with sn := (api.getIR w.sn).2 }).2.st.redBuffer).validSpO2
          ≠ 0
        ∧ 0 < (maxim (fillFrom api 100 0 { w with sn := (api.getIR w.sn).2 }).2.st.irBuffer
            (fillFrom api 100 0 { w with sn := (api.getIR w.sn).2 }).2.st.redBuffer).spo2Val
        ∧ (maxim (fillFrom api 100 0 { w with sn := (api.getIR w.sn).2 }).2.st.irBuffer
            (fillFrom api 100 0 { w with sn := (api.getIR w.sn).2 }).2.st.redBuffer).spo2Val
          ≤ 100 →
        (calculateSpO2 api maxim w).st.spo2
          = (maxim (fillFrom api 100 0 { w with sn := (api.getIR w.sn).2 }).2.st.irBuffer
              (fillFrom api 100 0 { w with sn := (api.getIR w.sn).2 }).2.st.redBuffer).spo2Val)
      ∧ (¬ ((maxim (fillFrom api 100 0 { w with sn := (api.getIR w.sn).2 }).2.st.irBuffer
            (fillFrom api 100 0 { w with sn := (api.getIR w.sn).2 }).2.st.redBuffer).validSpO2
          ≠ 0
        ∧ 0 < (maxim (fillFrom api 100 0 { w with sn := (api.getIR w.sn).2 }).2.st.irBuffer
            (fillFrom api 100 0 { w with sn := (api.getIR w.sn).2 }).2.st.redBuffer).spo2Val
        ∧ (maxim (fillFrom api 100 0 { w with sn := (api.getIR w.sn).2 }).2.st.irBuffer
            (fillFrom api 100 0 { w with sn := (api.getIR w.sn).2 }).2.st.redBuffer).spo2Val
          ≤ 100) →
        (calculateSpO2 api maxim w).st.spo2 = w.st.spo2)
      ∧ (calculateSpO2 api maxim w).spo2Calls = w.spo2Calls + 1)
    ∧ (∀ (f : D → Nat → Bool × D) (ops : List (Op Sn)), w.st.spo2 = 0 →
        0 ≤ (run api f maxim w ops).st.spo2 ∧ (run api f maxim w ops).st.spo2 ≤ 100) := by
  constructor
  · intro h hf
    obtain ⟨hs, hc⟩ := calculateSpO2_complete api maxim w h hf
    refine ⟨fun c => ?_, fun c => ?_, hc⟩
    · rw [hs, if_pos c]
    · rw [hs, if_neg c]
  · intro f ops h0
    exact run_spo2_range api f maxim ops w (by rw [h0]; decide)

theorem spo2_is_sticky_witness :
    (calculateSpO2 scriptSensor (constMaxim 97 1)
        (World.start (List.replicate 101 30000))).st.spo2 = 97
    ∧ (calculateSpO2 scriptSensor (constMaxim 97 0)
        (World.start (List.replicate 101 30000))).st.spo2 = 0
    ∧ (calculateSpO2 scriptSensor (constMaxim 101 1)
        (World.start (List.replicate 101 30000))).st.spo2 = 0
    ∧ (0 ≤ (run scriptSensor everyBeat (constMaxim 97 1) (World.start (List.replicate 101 30000))
          [Op.calcSpO2, Op.hardware (List.replicate 101 30000), Op.calcSpO2]).st.spo2
      ∧ (run scriptSensor everyBeat (constMaxim 97 1) (World.start (List.replicate 101 30000))
          [Op.calcSpO2, Op.hardware (List.replicate 101 30000), Op.calcSpO2]).st.spo2 ≤ 100) :=
  ⟨((spo2_is_sticky scriptSensor (constMaxim 97 1)
        (World.start (List.replicate 101 30000))).1 (by decide) (by decide)).1 (by decide),
   ((spo2_is_sticky scriptSensor (constMaxim 97 0)
        (World.start (List.replicate 101 30000))).1 (by decide) (by decide)).2.1 (by decide),
   ((spo2_is_sticky scriptSensor (constMaxim 101 1)
        (World.start (List.replicate 101 30000))).1 (by decide) (by decide)).2.1 (by decide),
   (spo2_is_sticky scriptSensor (constMaxim 97 1)
        (World.start (List.replicate 101 30000))).2 everyBeat
      [Op.calcSpO2, Op.hardware (List.replicate 101 30000), Op.calcSpO2] rfl⟩

/-- C9: when the initial IR poll is below 25000, `calculateSpO2` returns with
the globals untouched and without calling the ratio-of-ratios primitive.  When
some slot `i` in `0..99` is reached and its sample is still unavailable after
the retry budget of 50 retries, the call returns without calling the primitive
(whatever primitive is supplied, the outcome is the same) and `spo2`, like
every global other than the two sample buffers, is as before the call.  The
per-slot wait loop makes at most 50 waits, the whole call at most 100 × 50. -/
theorem window_abort_is_atomic (api : Sensor Sn) (maxim : List Nat → List Nat → MaximOut)
    (w : World Sn D) :
    ((api.getIR w.sn).1 < 25000 →
      (calculateSpO2 api maxim w).st = w.st
      ∧ (calculateSpO2 api maxim w).spo2Calls = w.spo2Calls
      ∧ (calculateSpO2 api maxim w).delays = w.delays)
    ∧ (∀ i : Nat, i < 100 → 25000 ≤ (api.getIR w.sn).1 →
        (fillFrom api i 0 { w with sn := (api.getIR w.sn).2 }).1 = true →
        (∀ j, j ≤ 50 → api.available
          (api.check^[j] (fillFrom api i 0 { w with sn := (api.getIR w.sn).2 }).2.sn) = 0) →
        (calculateSpO2 api maxim w).st.spo2 = w.st.spo2
        ∧ (calculateSpO2 api maxim w).spo2Calls = w.spo2Calls
        ∧ (∀ maxim2 : List Nat → List Nat → MaximOut,
            calculateSpO2 api maxim2 w = calculateSpO2 api maxim w)
        ∧ (∃ rb ib, (calculateSpO2 api maxim w).st
            = { w.st with redBuffer := rb, irBuffer := ib }))
    ∧ (∀ (sn : Sn) (d : Nat), (waitSample api 50 (sn, d)).2 ≤ d + 50)
    ∧ (calculateSpO2 api maxim w).delays ≤ w.delays + 100 * 50 := by
  refine ⟨?_, ?_, ?_, ?_⟩
  · intro h
    rw [calculateSpO2_absent api maxim w h]
    exact ⟨rfl, rfl, rfl⟩
  · intro i hi h hfill hun
    have hsplit : (100 : Nat) = i + ((99 - i) + 1) := by omega
    have hab := fillFrom_abort api (99 - i) (0 + i)
      (fillFrom api i 0 ({ w with sn := (api.getIR w.sn).2 } : World Sn D)).2 hun
    have hf : (fillFrom api 100 0 ({ w with sn := (api.getIR w.sn).2 } : World Sn D)).1
        = false := by
      rw [hsplit, fillFrom_add, hfill, if_pos rfl]
      exact hab.1
    obtain ⟨⟨rb, ib, e⟩, _, _, h4, _⟩ :=
      fillFrom_frame api 100 0 ({ w with sn := (api.getIR w.sn).2 } : World Sn D)
    refine ⟨?_, ?_, ?_, ⟨rb, ib, ?_⟩⟩
    · rw [calculateSpO2_abort api maxim w h hf, e]
    · rw [calculateSpO2_abort api maxim w h hf, h4]
    · intro maxim2
      rw [calculateSpO2_abort api maxim w h hf, calculateSpO2_abort api maxim2 w h hf]
    · rw [calculateSpO2_abort api maxim w h hf, e]
  · intro sn d
    exact (waitSample_delays api 50 (sn, d)).2
  · by_cases h : (api.getIR w.sn).1 < 25000
    · rw [calculateSpO2_absent api maxim w h]
      show w.delays ≤ w.delays + 100 * 50
      omega
    · obtain ⟨_, _, _, _, h5⟩ :=
        fillFrom_frame api 100 0 ({ w with sn := (api.getIR w.sn).2 } : World Sn D)
      have h6 : (fillFrom api 100 0 ({ w with sn := (api.getIR w.sn).2 } : World Sn D)).2.delays
          ≤ w.delays + 100 * 50 := by
        have e : ({ w with sn := (api.getIR w.sn).2 } : World Sn D).delays = w.delays := rfl
        rw [e] at h5
        omega
      by_cases hf :
          (fillFrom api 100 0 ({ w with sn := (api.getIR w.sn).2 } : World Sn D)).1 = true
      · simp only [calculateSpO2, if_neg h, hf, if_true]
        split <;> exact h6
      · rw [calculateSpO2_abort api maxim w (not_lt.mp h) (Bool.eq_false_iff.mpr hf)]
        exact h6

theorem window_abort_is_atomic_witness :
    ((fillFrom scriptSensor 47 0
        { World.start (List.replicate 48 30000) with
          sn := (scriptSensor.getIR (World.start (List.replicate 48 30000)).sn).2 }).1 = true
      ∧ (fillFrom scriptSensor 47 0
        { World.start (List.replicate 48 30000) with
          sn := (scriptSensor.getIR (World.start (List.replicate 48 30000)).sn).2 }).2.sn = [])
    ∧ (calculateSpO2 scriptSensor (constMaxim 97 1)
        (World.start (List.replicate 48 30000))).st.spo2 = 0
    ∧ (calculateSpO2 scriptSensor (constMaxim 97 1)
        (World.start (List.replicate 48 30000))).spo2Calls = 0
    ∧ (calculateSpO2 scriptSensor (constMaxim 97 1)
        (World.start [100])).st = State.init
    ∧ (calculateSpO2 scriptSensor (constMaxim 97 1)
        (World.start (List.replicate 48 30000))).delays = 50 :=
  have hsn : (fillFrom scriptSensor 47 0
        { World.start (List.replicate 48 30000) with
          sn := (scriptSensor.getIR (World.start (List.replicate 48 30000)).sn).2 }).2.sn = [] := by
    decide
  have h := (window_abort_is_atomic scriptSensor (constMaxim 97 1)
      (World.start (List.replicate 48 30000))).2.1 47 (by decide) (by decide) (by decide)
      (fun j _ => by rw [hsn, Function.iterate_fixed rfl]; rfl)
  ⟨⟨by decide, hsn⟩, h.1, h.2.1,
    ((window_abort_is_atomic scriptSensor (constMaxim 97 1) (World.start [100])).1
      (by decide)).1,
    by decide⟩

/-! ## First beat after a stretch without detected beats -/

/-- A call of `calculateSpO2` changes no global other than the two sample
buffers and `spo2`. -/
theorem calculateSpO2_frame (api : Sensor Sn) (maxim : List Nat → List Nat → MaximOut)
    (w : World Sn D) :
    ∃ rb ib sp, (calculateSpO2 api maxim w).st
      = { w.st with redBuffer := rb, irBuffer := ib, spo2 := sp } := by
  by_cases h : (api.getIR w.sn).1 < 25000
  · rw [calculateSpO2_absent api maxim w h]
    exact ⟨w.st.redBuffer, w.st.irBuffer, w.st.spo2, rfl⟩
  · obtain ⟨⟨rb, ib, e⟩, _⟩ :=
      fillFrom_frame api 100 0 ({ w with sn := (api.getIR w.sn).2 } : World Sn D)
    by_cases hf : (fillFrom api 100 0 ({ w with sn := (api.getIR w.sn).2 } : World Sn D)).1 = true
    · refine ⟨rb, ib, (calculateSpO2 api maxim w).st.spo2, ?_⟩
      simp only [calculateSpO2, if_neg h, hf, if_true]
      split
      · rw [e]
      · rw [e]
    · rw [calculateSpO2_abort api maxim w (not_lt.mp h) (Bool.eq_false_iff.mpr hf), e]
      exact ⟨rb, ib, w.st.spo2, rfl⟩

/-- A call of `checkAlarmState` changes none of `pulse`, `lastBeat`,
`beatDetected`. -/
theorem checkAlarmState_beat_fields (now1 now2 : Nat) (s : State) :
    (checkAlarmState now1 now2 s).pulse = s.pulse
    ∧ (checkAlarmState now1 now2 s).lastBeat = s.lastBeat
    ∧ (checkAlarmState now1 now2 s).beatDetected = s.beatDetected := by
  unfold checkAlarmState
  split
  · split <;> exact ⟨rfl, rfl, rfl⟩
  · split
    · dsimp only
      split <;> exact ⟨rfl, rfl, rfl⟩
    · exact ⟨rfl, rfl, rfl⟩

/-- An operation that detects no beat keeps `pulse` and `lastBeat`, keeps
`beatDetected` false once it is false, and makes it false when it is a
finger-absent call. -/
theorem step_quiet (api : Sensor Sn) (f : D → Nat → Bool × D)
    (maxim : List Nat → List Nat → MaximOut) (w : World Sn D) (op : Op Sn)
    (hq : opQuiet api f w op = true) :
    (step api f maxim w op).st.pulse = w.st.pulse
    ∧ (step api f maxim w op).st.lastBeat = w.st.lastBeat
    ∧ (w.st.beatDetected = false ∨ opAbsent api w op = true →
        (step api f maxim w op).st.beatDetected = false) := by
  cases op with
  | readSensor now1 now2 =>
    simp only [opQuiet, Bool.or_eq_true, decide_eq_true_eq, Bool.not_eq_true'] at hq
    show (readSensorData api f now1 now2 w).st.pulse = _
      ∧ (readSensorData api f now1 now2 w).st.lastBeat = _
      ∧ (_ → (readSensorData api f now1 now2 w).st.beatDetected = false)
    by_cases hir : (api.getIR w.sn).1 < 25000
    · rw [readSensorData_absent api f now1 now2 w hir]
      exact ⟨rfl, rfl, fun _ => rfl⟩
    · have hb : (f w.det (api.getIR w.sn).1).1 = false := by
        rcases hq with h1 | h1
        · exact absurd h1 hir
        · exact h1
      rw [readSensorData_nobeat api f now1 now2 w (not_lt.mp hir) hb]
      refine ⟨rfl, rfl, fun c => ?_⟩
      rcases c with c | c
      · exact c
      · simp only [opAbsent, decide_eq_true_eq] at c
        exact absurd c hir
  | calcSpO2 =>
    obtain ⟨rb, ib, sp, e⟩ := calculateSpO2_frame api maxim w
    show (calculateSpO2 api maxim w).st.pulse = _
      ∧ (calculateSpO2 api maxim w).st.lastBeat = _
      ∧ (_ → (calculateSpO2 api maxim w).st.beatDetected = false)
    rw [e]
    refine ⟨rfl, rfl, fun c => ?_⟩
    rcases c with c | c
    · exact c
    · exact absurd c (by simp [opAbsent])
  | checkAlarm now1 now2 =>
    obtain ⟨h1, h2, h3⟩ := checkAlarmState_beat_fields now1 now2 w.st
    refine ⟨h1, h2, fun c => ?_⟩
    rcases c with c | c
    · exact h3.trans c
    · exact absurd c (by simp [opAbsent])
  | setTime h m now =>
    obtain ⟨tb, e⟩ := handleSetTime_timeBase_only h m now w.st
    show (handleSetTime h m now w.st).pulse = _ ∧ (handleSetTime h m now w.st).lastBeat = _
      ∧ (_ → (handleSetTime h m now w.st).beatDetected = false)
    rw [e]
    refine ⟨rfl, rfl, fun c => ?_⟩
    rcases c with c | c
    · exact c
    · exact absurd c (by simp [opAbsent])
  | setAlarm h m =>
    have e : (handleSetAlarm h m w.st).pulse = w.st.pulse
        ∧ (handleSetAlarm h m w.st).lastBeat = w.st.lastBeat
        ∧ (handleSetAlarm h m w.st).beatDetected = w.st.beatDetected := by
      unfold handleSetAlarm
      split <;> exact ⟨rfl, rfl, rfl⟩
    refine ⟨e.1, e.2.1, fun c => ?_⟩
    rcases c with c | c
    · exact e.2.2.trans c
    · exact absurd c (by simp [opAbsent])
  | clearAlarm =>
    refine ⟨rfl, rfl, fun c => ?_⟩
    rcases c with c | c
    · exact c
    · exact absurd c (by simp [opAbsent])
  | hardware sn =>
    refine ⟨rfl, rfl, fun c => ?_⟩
    rcases c with c | c
    · exact c
    · exact absurd c (by simp [opAbsent])

/-- A sequence of operations without a detected beat keeps `pulse` and
`lastBeat`; `beatDetected` is false at its end when it was false at its start
or when the sequence contains a finger-absent call. -/
theorem run_quiet (api : Sensor Sn) (f : D → Nat → Bool × D)
    (maxim : List Nat → List Nat → MaximOut) (ops : List (Op Sn)) :
    ∀ w : World Sn D, noBeatOps api f maxim w ops = true →
      (run api f maxim w ops).st.pulse = w.st.pulse
      ∧ (run api f maxim w ops).st.lastBeat = w.st.lastBeat
      ∧ (w.st.beatDetected = false ∨ someAbsentOps api f maxim w ops = true →
          (run api f maxim w ops).st.beatDetected = false) := by
  induction ops with
  | nil =>
    intro w _
    refine ⟨rfl, rfl, fun c => ?_⟩
    rcases c with c | c
    · exact c
    · exact absurd c (by simp [someAbsentOps])
  | cons op ops ih =>
    intro w h
    simp only [noBeatOps, Bool.and_eq_true] at h
    obtain ⟨h1, h2⟩ := h
    obtain ⟨s1, s2, s3⟩ := step_quiet api f maxim w op h1
    obtain ⟨r1, r2, r3⟩ := ih (step api f maxim w op) h2
    show (run api f maxim (step api f maxim w op) ops).st.pulse = _
      ∧ (run api f maxim (step api f maxim w op) ops).st.lastBeat = _
      ∧ (_ → (run api f maxim (step api f maxim w op) ops).st.beatDetected = false)
    refine ⟨r1.trans s1, r2.trans s2, fun c => ?_⟩
    rcases c with c | c
    · exact r3 (Or.inl (s3 (Or.inl c)))
    · simp only [someAbsentOps, Bool.or_eq_true] at c
      rcases c with c | c
      · exact r3 (Or.inl (s3 (Or.inr c)))
      · exact r3 (Or.inr c)

/-- C10 (amended): the first beat detected after startup (`lastBeat = 0`), and
the first beat detected after a finger-removal episode, whatever operations
without a detected beat come before it, is recorded in `lastBeat`.  It is not
reported (`pulse` keeps its value and `beatDetected` is not set, being false
after the episode) when the interval `Δ` between the `millis()` reading and the
stored `lastBeat` satisfies `Δ ≤ 300` or `Δ ≥ 2000`; `lastBeat` is 0 at startup,
so `Δ` is then the reading itself, and it is not reset by the episode.  When
`300 < Δ < 2000` the beat is reported with `pulse = 60000 / Δ`. -/
theorem first_beat_suppression (api : Sensor Sn) (f : D → Nat → Bool × D)
    (maxim : List Nat → List Nat → MaximOut) :
    (∀ (w : World Sn D) (ops : List (Op Sn)) (now1 now2 : Nat),
      w.st.lastBeat = 0 → noBeatOps api f maxim w ops = true →
      25000 ≤ (api.getIR (run api f maxim w ops).sn).1 →
      (f (run api f maxim w ops).det (api.getIR (run api f maxim w ops).sn).1).1 = true →
        (readSensorData api f now1 now2 (run api f maxim w ops)).st.lastBeat = now2
        ∧ (now1 % UL ≤ 300 ∨ 2000 ≤ now1 % UL →
            (readSensorData api f now1 now2 (run api f maxim w ops)).st.pulse = w.st.pulse
            ∧ (readSensorData api f now1 now2 (run api f maxim w ops)).st.beatDetected
                = (run api f maxim w ops).st.beatDetected
            ∧ (w.st.beatDetected = false →
                (readSensorData api f now1 now2 (run api f maxim w ops)).st.beatDetected
                  = false))
        ∧ (300 < now1 % UL ∧ now1 % UL < 2000 →
            (readSensorData api f now1 now2 (run api f maxim w ops)).st.pulse
                = ((60000 / (now1 % UL) : Nat) : Int)
            ∧ (readSensorData api f now1 now2 (run api f maxim w ops)).st.beatDetected = true))
    ∧ (∀ (w : World Sn D) (ops : List (Op Sn)) (now1 now2 : Nat),
      noBeatOps api f maxim w ops = true → someAbsentOps api f maxim w ops = true →
      25000 ≤ (api.getIR (run api f maxim w ops).sn).1 →
      (f (run api f maxim w ops).det (api.getIR (run api f maxim w ops).sn).1).1 = true →
        (readSensorData api f now1 now2 (run api f maxim w ops)).st.lastBeat = now2
        ∧ (sub32 now1 w.st.lastBeat ≤ 300 ∨ 2000 ≤ sub32 now1 w.st.lastBeat →
            (readSensorData api f now1 now2 (run api f maxim w ops)).st.pulse = w.st.pulse
            ∧ (readSensorData api f now1 now2 (run api f maxim w ops)).st.beatDetected = false)
        ∧ (300 < sub32 now1 w.st.lastBeat ∧ sub32 now1 w.st.lastBeat < 2000 →
            (readSensorData api f now1 now2 (run api f maxim w ops)).st.pulse
                = ((60000 / sub32 now1 w.st.lastBeat : Nat) : Int)
            ∧ (readSensorData api f now1 now2 (run api f maxim w ops)).st.beatDetected
                = true)) := by
  constructor
  · intro w ops now1 now2 h0 hq hfinger hbeat
    obtain ⟨hp, hl, hb⟩ := run_quiet api f maxim ops w hq
    have hΔ : sub32 now1 (run api f maxim w ops).st.lastBeat = now1 % UL := by
      rw [hl, h0]
      unfold sub32 UL
      omega
    rw [readSensorData_beat api f now1 now2 _ hfinger hbeat, hΔ]
    refine ⟨?_, ?_, ?_⟩
    · split <;> rfl
    · intro c
      have hn : ¬ (300 < now1 % UL ∧ now1 % UL < 2000) := by omega
      rw [if_neg hn]
      exact ⟨hp, rfl, fun hw => hb (Or.inl hw)⟩
    · intro c
      rw [if_pos c]
      exact ⟨rfl, rfl⟩
  · intro w ops now1 now2 hq ha hfinger hbeat
    obtain ⟨hp, hl, hb⟩ := run_quiet api f maxim ops w hq
    rw [readSensorData_beat api f now1 now2 _ hfinger hbeat, hl]
    refine ⟨?_, ?_, ?_⟩
    · split <;> rfl
    · intro c
      have hn : ¬ (300 < sub32 now1 w.st.lastBeat ∧ sub32 now1 w.st.lastBeat < 2000) := by
        omega
      rw [if_neg hn]
      exact ⟨hp, hb (Or.inr ha)⟩
    · intro c
      rw [if_pos c]
      exact ⟨rfl, rfl⟩

theorem first_beat_suppression_witness :
    ((readSensorData scriptSensor peakBeat 2500 2501
        (run scriptSensor peakBeat (constMaxim 97 1) (World.booted [100, 30000, 32000])
          [Op.checkAlarm 2300 2300, Op.readSensor 2400 2401, Op.readSensor 2420 2421,
           Op.setAlarm (some 7) (some 30)])).st.lastBeat = 2501
      ∧ (readSensorData scriptSensor peakBeat 2500 2501
        (run scriptSensor peakBeat (constMaxim 97 1) (World.booted [100, 30000, 32000])
          [Op.checkAlarm 2300 2300, Op.readSensor 2400 2401, Op.readSensor 2420 2421,
           Op.setAlarm (some 7) (some 30)])).st.pulse = 0
      ∧ (readSensorData scriptSensor peakBeat 2500 2501
        (run scriptSensor peakBeat (constMaxim 97 1) (World.booted [100, 30000, 32000])
          [Op.checkAlarm 2300 2300, Op.readSensor 2400 2401, Op.readSensor 2420 2421,
           Op.setAlarm (some 7) (some 30)])).st.beatDetected = false)
    ∧ ((readSensorData scriptSensor peakBeat 13000 13001
        (run scriptSensor peakBeat (constMaxim 97 1) (World.afterBeat [100, 30000, 32000])
          [Op.readSensor 10100 10101, Op.readSensor 10120 10121])).st.lastBeat = 13001
      ∧ (readSensorData scriptSensor peakBeat 13000 13001
        (run scriptSensor peakBeat (constMaxim 97 1) (World.afterBeat [100, 30000, 32000])
          [Op.readSensor 10100 10101, Op.readSensor 10120 10121])).st.pulse = 75
      ∧ (readSensorData scriptSensor peakBeat 13000 13001
        (run scriptSensor peakBeat (constMaxim 97 1) (World.afterBeat [100, 30000, 32000])
          [Op.readSensor 10100 10101, Op.readSensor 10120 10121])).st.beatDetected = false) :=
  have a := (first_beat_suppression scriptSensor peakBeat (constMaxim 97 1)).1
    (World.booted [100, 30000, 32000])
    [Op.checkAlarm 2300 2300, Op.readSensor 2400 2401, Op.readSensor 2420 2421,
     Op.setAlarm (some 7) (some 30)] 2500 2501 rfl (by decide) (by decide) (by decide)
  have b := (first_beat_suppression scriptSensor peakBeat (constMaxim 97 1)).2
    (World.afterBeat [100, 30000, 32000])
    [Op.readSensor 10100 10101, Op.readSensor 10120 10121] 13000 13001
    (by decide) (by decide) (by decide) (by decide)
  ⟨⟨a.1, (a.2.1 (by decide)).1, (a.2.1 (by decide)).2.2 rfl⟩,
   ⟨b.1, (b.2.1 (by decide)).1, (b.2.1 (by decide)).2⟩⟩

end HealthMonitor
